import Mathlib

/-!
Shallow embedding of `get_data.py` from the `worldpop_osm_data` repository.

Conventions of the embedding:
* Python floats are idealised as rationals (`ℚ`); `float.is_integer()` becomes
  `Rat.den = 1`, `math.floor` becomes `Int.floor`, and `x % 1` on floats becomes
  `Int.fract` (both take the sign of the (positive) divisor, so they agree).
* Python runtime exceptions (ZeroDivisionError, NameError, IndexError, the
  `exit()` call on invalid bounds) are modelled with `Except PyErr`.
* The external `geopy.distance.geodesic` library is not code of this repository;
  it is taken as a parameter `geod : Pt → Pt → ℚ` returning kilometres, exactly
  as the source calls it (`geodesic(a, b).km * 1000` gives metres).
* The remote WorldPop service is modelled by a stream of responses
  (`List Resp`), consumed one per HTTP request in program order; file writes are
  modelled by the constructor of the returned outcome.
-/

/-- A coordinate pair; the source stores points as `[lat, lon]` lists
(`coor[0]` is latitude, `coor[1]` is longitude). -/
structure Pt where
  lat : ℚ
  lon : ℚ
deriving DecidableEq, Repr

/-- Python runtime failures reachable in `generate_geojson_grid`. -/
inductive PyErr where
  | invalidBounds
  | zeroDivision
  | indexError
  | nameError
deriving DecidableEq, Repr

/-- Python division: raises ZeroDivisionError on a zero divisor. -/
def pydiv (a b : ℚ) : Except PyErr ℚ :=
  if b = 0 then .error .zeroDivision else .ok (a / b)

/-- One entry of the `divisions` list built by `generate_geojson_grid`:
`[count, degree step, metre size]`. -/
structure Division where
  count : ℤ
  step : ℚ
  size : ℚ
deriving DecidableEq, Repr

/-- One GeoJSON feature: the polygon ring (vertices as `(lon, lat)` pairs,
mirroring `[curr_y, curr_x]` in the source) and its property bag, of which only
the `population` key is ever used. -/
structure Feature where
  coords : List (ℚ × ℚ)
  population : Option ℚ
deriving DecidableEq, Repr

/-- Python `max` over a list (the source applies it to nonempty bounds lists). -/
def listMax (l : List ℚ) : ℚ :=
  match l with
  | [] => 0
  | a :: t => t.foldl max a

/-- Python `min` over a list. -/
def listMin (l : List ℚ) : ℚ :=
  match l with
  | [] => 0
  | a :: t => t.foldl min a

/-- Normalised bounds `(min_x, max_x, min_y, max_y)` as computed at the top of
`generate_geojson_grid` (`x` = latitude, `y` = longitude). -/
structure NormBounds where
  min_x : ℚ
  max_x : ℚ
  min_y : ℚ
  max_y : ℚ
deriving DecidableEq, Repr

def normBounds (bounds : List Pt) : NormBounds :=
  ⟨listMin (bounds.map Pt.lat), listMax (bounds.map Pt.lat),
   listMin (bounds.map Pt.lon), listMax (bounds.map Pt.lon)⟩

/-- `width = geodesic([min_x, min_y], [max_x, min_y]).km * 1000`. -/
def gridWidth (geod : Pt → Pt → ℚ) (bounds : List Pt) : ℚ :=
  let nb := normBounds bounds
  geod ⟨nb.min_x, nb.min_y⟩ ⟨nb.max_x, nb.min_y⟩ * 1000

/-- `height = geodesic([min_x, min_y], [min_x, max_y]).km * 1000`. -/
def gridHeight (geod : Pt → Pt → ℚ) (bounds : List Pt) : ℚ :=
  let nb := normBounds bounds
  geod ⟨nb.min_x, nb.min_y⟩ ⟨nb.min_x, nb.max_y⟩ * 1000

/-- One iteration of the `min_division` sizing loop (`num_divisions == None`
branch): from the axis extent in metres and the axis degree span, produce
`[floor(raw), diff / floor(raw), division_size]` where
`raw = dimension / min_division`, with the remainder-redistribution adjustment
when `raw` is not an integer. -/
def min_size_axis (min_division dimension diff : ℚ) : Except PyErr Division :=
  match pydiv dimension min_division with
  | .error e => .error e
  | .ok num_divisions =>
    let sizeE : Except PyErr ℚ :=
      if num_divisions.den = 1 then .ok min_division
      else
        match pydiv (Int.fract num_divisions * min_division) ((⌊num_divisions⌋ : ℤ) : ℚ) with
        | .error e => .error e
        | .ok adj => .ok (min_division + adj)
    match sizeE with
    | .error e => .error e
    | .ok division_size =>
      match pydiv diff ((⌊num_divisions⌋ : ℤ) : ℚ) with
      | .error e => .error e
      | .ok step => .ok ⟨⌊num_divisions⌋, step, division_size⟩

/-- One iteration of the explicit-count loop (`num_divisions` supplied):
`[dim_division, diff / dim_division, dimension / dim_division]`. -/
def explicit_axis (dim_division : ℤ) (dimension diff : ℚ) : Except PyErr Division :=
  match pydiv diff ((dim_division : ℤ) : ℚ) with
  | .error e => .error e
  | .ok step =>
    match pydiv dimension ((dim_division : ℤ) : ℚ) with
    | .error e => .error e
    | .ok size => .ok ⟨dim_division, step, size⟩

/-- The `divisions` list of `generate_geojson_grid`.  In explicit mode the
source first calls `num_divisions.reverse()` and then zips the reversed list
with `[width, height]` and the degree spans; `zip` truncates to the shorter
list, as in Python. -/
def compute_divisions (geod : Pt → Pt → ℚ) (bounds : List Pt)
    (min_division : ℚ) (num_divisions : Option (List ℤ)) : Except PyErr (List Division) :=
  let nb := normBounds bounds
  let width := gridWidth geod bounds
  let height := gridHeight geod bounds
  match num_divisions with
  | none =>
    match min_size_axis min_division width (nb.max_x - nb.min_x) with
    | .error e => .error e
    | .ok d0 =>
      match min_size_axis min_division height (nb.max_y - nb.min_y) with
      | .error e => .error e
      | .ok d1 => .ok [d0, d1]
  | some nd =>
    match nd.reverse with
    | [] => .ok []
    | [n0] =>
      match explicit_axis n0 width (nb.max_x - nb.min_x) with
      | .error e => .error e
      | .ok d0 => .ok [d0]
    | n0 :: n1 :: _ =>
      match explicit_axis n0 width (nb.max_x - nb.min_x) with
      | .error e => .error e
      | .ok d0 =>
        match explicit_axis n1 height (nb.max_y - nb.min_y) with
        | .error e => .error e
        | .ok d1 => .ok [d0, d1]

/-- One emitted cell: the source builds
`[[y, x], [y, x+w], [y+h, x+w], [y+h, x]]` with an empty property bag. -/
def mkCell (x y w h : ℚ) : Feature :=
  ⟨[(y, x), (y, x + w), (y + h, x + w), (y + h, x)], none⟩

/-- The inner emission loop: emit `n` cells walking the `y` (longitude)
coordinate by `h` each step. -/
def emitRow : ℕ → ℚ → ℚ → ℚ → ℚ → List Feature
  | 0, _, _, _, _ => []
  | n + 1, x, y, w, h => mkCell x y w h :: emitRow n x (y + h) w h

/-- The outer emission loop: after each row, `y` is reset to `min_y` and `x`
advances by `w`. -/
def emitRows : ℕ → ℕ → ℚ → ℚ → ℚ → ℚ → List Feature
  | 0, _, _, _, _, _ => []
  | i + 1, n1, x, min_y, w, h => emitRow n1 x min_y w h ++ emitRows i n1 (x + w) min_y w h

/-- The full emission phase.  `range(n)` over a non-positive Python int is
empty, hence `Int.toNat`.  When the outer loop runs but the inner loop never
does, the source hits `current_grid_coors[0] += division_width` with
`division_width` unbound: a NameError. -/
def emitGrid (n0 n1 : ℤ) (min_x min_y w h : ℚ) : Except PyErr (List Feature) :=
  if n0.toNat ≠ 0 ∧ n1.toNat = 0 then .error .nameError
  else .ok (emitRows n0.toNat n1.toNat min_x min_y w h)

/-- The observable result of a successful `generate_geojson_grid` run: the
`divisions` list, the emitted feature list (what is written to the GeoJSON
file), and the final value of the caller's `num_divisions` argument (the
source reverses that list in place). -/
structure GridResult where
  divisions : List Division
  features : List Feature
  num_divisions_after : Option (List ℤ)
deriving DecidableEq, Repr

/-- Embedding of `generate_geojson_grid`.  `bounds` must have 2 or 4 points,
otherwise the source prints `Invalid bounds` and exits. -/
def generate_geojson_grid (geod : Pt → Pt → ℚ) (bounds : List Pt)
    (min_division : ℚ) (num_divisions : Option (List ℤ)) : Except PyErr GridResult :=
  if bounds.length = 2 ∨ bounds.length = 4 then
    let nb := normBounds bounds
    match compute_divisions geod bounds min_division num_divisions with
    | .error e => .error e
    | .ok divisions =>
      match divisions with
      | d0 :: d1 :: _ =>
        match emitGrid d0.count d1.count nb.min_x nb.min_y d0.step d1.step with
        | .error e => .error e
        | .ok features => .ok ⟨divisions, features, num_divisions.map List.reverse⟩
      | _ => .error .indexError
  else .error .invalidBounds

/-- A WorldPop stats-service response, of the `{status, error, data?, taskid?}`
shape described for the service; `data` stands for `data.total_population`.
The source reads `error_message` on a polling error and `error_description` on
an initial-request error. -/
structure Resp where
  status : String
  error : Bool
  data : Option ℚ
  taskid : Option String
  error_message : String
  error_description : String
deriving DecidableEq, Repr

/-- How a `get_worldpop_data` run ends.  `ok` and `initialError` carry the
feature list written to the output file (`json.dump` before `exit()` in the
initial-error branch); `pollError` is the polling-loop `exit()` which writes
nothing.  `keyError` models `request_response['taskid']` on a response without
that key; `noMoreResponses` is the model artifact of an exhausted stream. -/
inductive FetchOutcome where
  | ok (written : List Feature)
  | initialError (msg : String) (written : List Feature)
  | pollError (msg : String)
  | keyError
  | noMoreResponses
deriving DecidableEq, Repr

/-- The feature list persisted to the output file by a finished run, if any. -/
def writtenOutput : FetchOutcome → Option (List Feature)
  | .ok g => some g
  | .initialError _ g => some g
  | _ => none

/-- Result of a `get_worldpop_data` run: the outcome, the argument of each
`sleep` call in order, the number of HTTP requests issued, and the
`total_population` accumulator. -/
structure FetchResult where
  outcome : FetchOutcome
  sleeps : List ℕ
  requests : ℕ
  total : ℚ
deriving DecidableEq, Repr

/-- Result of the task-polling loop (`while not fetched`). -/
inductive PollResult where
  | done (pop : ℚ) (rest : List Resp) (sleeps : List ℕ) (requests : ℕ)
  | failed (msg : String) (sleeps : List ℕ) (requests : ℕ)
  | noMore (sleeps : List ℕ) (requests : ℕ)
deriving DecidableEq, Repr

/-- The polling loop of `get_worldpop_data`: query the task endpoint, and on a
response with `data` and no error finish; on no error with status not yet
`finished`, sleep for the current timeout and grow it by 10; on an error,
fail with the response's `error_message`.  A `finished` status with no error
and no data re-polls immediately (no branch of the source matches it). -/
def pollTask : List Resp → ℕ → List ℕ → ℕ → PollResult
  | [], _, sleeps, reqs => .noMore sleeps reqs
  | r :: rest, timeout, sleeps, reqs =>
    match r.data, r.error with
    | some d, false => .done d rest sleeps (reqs + 1)
    | _, _ =>
      if r.status ≠ "finished" ∧ r.error = false then
        pollTask rest (timeout + 10) (sleeps ++ [timeout]) (reqs + 1)
      else if r.error then
        .failed r.error_message sleeps (reqs + 1)
      else
        pollTask rest timeout sleeps (reqs + 1)

/-- The per-cell loop of `get_worldpop_data`.  `acc` is the prefix of cells
already traversed (with any annotations made); on the initial-error branch the
source dumps the whole in-place-mutated `geojson_data`, i.e. `acc` followed by
the current cell and the untouched remainder. -/
def fetchCells : List Feature → List Resp → List Feature → List ℕ → ℕ → ℚ → FetchResult
  | [], _, acc, sleeps, reqs, total => ⟨.ok acc, sleeps, reqs, total⟩
  | c :: cs, stream, acc, sleeps, reqs, total =>
    match c.population with
    | some p => fetchCells cs stream (acc ++ [c]) sleeps reqs (total + p)
    | none =>
      match stream with
      | [] => ⟨.noMoreResponses, sleeps, reqs, total⟩
      | r :: rest =>
        match r.data, r.error with
        | some d, false =>
          fetchCells cs rest (acc ++ [{ c with population := some d }]) sleeps (reqs + 1) (total + d)
        | _, _ =>
          if (r.status = "created" ∨ r.status = "started" ∨ r.status = "finished")
              ∧ r.error = false then
            match r.taskid with
            | none => ⟨.keyError, sleeps, reqs + 1, total⟩
            | some _ =>
              match pollTask rest 10 sleeps (reqs + 1) with
              | .done d rest2 sleeps2 reqs2 =>
                fetchCells cs rest2 (acc ++ [{ c with population := some d }]) sleeps2 reqs2 (total + d)
              | .failed msg sleeps2 reqs2 => ⟨.pollError msg, sleeps2, reqs2, total⟩
              | .noMore sleeps2 reqs2 => ⟨.noMoreResponses, sleeps2, reqs2, total⟩
          else
            ⟨.initialError r.error_description (acc ++ c :: cs), sleeps, reqs + 1, total⟩

/-- Embedding of `get_worldpop_data`: walk the grid's features against the
service's response stream, starting with an empty traversed prefix, no sleeps,
no requests, and a zero population total. -/
def get_worldpop_data (grid : List Feature) (responses : List Resp) : FetchResult :=
  fetchCells grid responses [] [] 0 0

instance {ε α : Type} [DecidableEq ε] [DecidableEq α] : DecidableEq (Except ε α) := fun a b =>
  match a, b with
  | .error e, .error f => decidable_of_iff (e = f) (by simp)
  | .error _, .ok _ => .isFalse (by simp)
  | .ok _, .error _ => .isFalse (by simp)
  | .ok x, .ok y => decidable_of_iff (x = y) (by simp)

/-- A stand-in for the external geodesic library in concrete instances:
distance 0 between coincident points, `hkm` kilometres along a parallel
(equal latitudes), `wkm` kilometres otherwise (the width measurement varies
latitude at fixed longitude). -/
def stubGeod (wkm hkm : ℚ) (p q : Pt) : ℚ :=
  if p = q then 0 else if p.lat = q.lat then hkm else wkm


/-- A polling-mode service response: `status = started`, no error, no data. -/
def taskResp : Resp := ⟨"started", false, none, some "tid", "", ""⟩

/-- A successful service response carrying `data.total_population = d`. -/
def dataResp (d : ℚ) : Resp := ⟨"finished", false, some d, none, "", ""⟩

/-- An error response; `em` is its `error_message`, `ed` its
`error_description`. -/
def errResp (em ed : String) : Resp := ⟨"failed", true, none, none, em, ed⟩

/-- A grid cell with no vertices recorded and no population annotation. -/
def blankCell : Feature := ⟨[], none⟩

theorem pydiv_ok {b : ℚ} (a : ℚ) (hb : b ≠ 0) : pydiv a b = .ok (a / b) := by
  simp [pydiv, hb]

theorem pydiv_zero (a : ℚ) : pydiv a 0 = .error .zeroDivision := by
  simp [pydiv]

/-- `min_size_axis` raises ZeroDivisionError when the minimum size is zero or
the floored division count is zero. -/
theorem min_size_axis_err {m dim : ℚ} (diff : ℚ) (h : m = 0 ∨ ⌊dim / m⌋ = 0) :
    min_size_axis m dim diff = .error .zeroDivision := by
  rcases h with h | h
  · subst h
    simp [min_size_axis, pydiv]
  · rcases eq_or_ne m 0 with hm | hm
    · subst hm
      simp [min_size_axis, pydiv]
    · simp only [min_size_axis, pydiv_ok _ hm]
      rw [h]
      rcases eq_or_ne (dim / m).den 1 with hd | hd
      · simp [hd, pydiv]
      · simp [hd, pydiv]

/-- Successful evaluation of `min_size_axis` when nothing divides by zero. -/
theorem min_size_axis_ok {m dim : ℚ} (diff : ℚ) (hm : m ≠ 0) (hfl : ⌊dim / m⌋ ≠ 0) :
    min_size_axis m dim diff =
      .ok ⟨⌊dim / m⌋, diff / ((⌊dim / m⌋ : ℤ) : ℚ),
        if (dim / m).den = 1 then m
        else m + Int.fract (dim / m) * m / ((⌊dim / m⌋ : ℤ) : ℚ)⟩ := by
  have hfl2 : ((⌊dim / m⌋ : ℤ) : ℚ) ≠ 0 := Int.cast_ne_zero.mpr hfl
  rcases eq_or_ne (dim / m).den 1 with hd | hd
  · simp only [min_size_axis, pydiv_ok _ hm, pydiv_ok _ hfl2, hd, if_true]
  · simp only [min_size_axis, pydiv_ok _ hm, pydiv_ok _ hfl2, hd, if_false]

theorem explicit_axis_ok {n : ℤ} (dim diff : ℚ) (hn : n ≠ 0) :
    explicit_axis n dim diff = .ok ⟨n, diff / (n : ℚ), dim / (n : ℚ)⟩ := by
  have h2 : ((n : ℤ) : ℚ) ≠ 0 := Int.cast_ne_zero.mpr hn
  simp [explicit_axis, pydiv_ok _ h2]

theorem explicit_axis_zero (dim diff : ℚ) :
    explicit_axis 0 dim diff = .error .zeroDivision := by
  simp [explicit_axis, pydiv]

theorem normBounds_pair (p q : Pt) :
    normBounds [p, q] =
      ⟨min p.lat q.lat, max p.lat q.lat, min p.lon q.lon, max p.lon q.lon⟩ := by
  simp [normBounds, listMin, listMax]

theorem emitRow_length (n : ℕ) (x y w h : ℚ) : (emitRow n x y w h).length = n := by
  induction n generalizing y with
  | zero => simp [emitRow]
  | succ k ih => simp [emitRow, ih]

theorem emitRows_length (n0 n1 : ℕ) (x my w h : ℚ) :
    (emitRows n0 n1 x my w h).length = n0 * n1 := by
  induction n0 generalizing x with
  | zero => simp [emitRows]
  | succ k ih =>
    simp only [emitRows, List.length_append, emitRow_length, ih]
    ring

theorem emitRow_shape {n : ℕ} {x y w h : ℚ} {f : Feature} (hf : f ∈ emitRow n x y w h) :
    ∃ b, f = mkCell x b w h := by
  induction n generalizing y with
  | zero => simp [emitRow] at hf
  | succ k ih =>
    rw [emitRow, List.mem_cons] at hf
    rcases hf with hf | hf
    · exact ⟨y, hf⟩
    · exact ih hf

theorem emitRows_shape {n0 n1 : ℕ} {x my w h : ℚ} {f : Feature}
    (hf : f ∈ emitRows n0 n1 x my w h) : ∃ a b, f = mkCell a b w h := by
  induction n0 generalizing x with
  | zero => simp [emitRows] at hf
  | succ k ih =>
    rw [emitRows, List.mem_append] at hf
    rcases hf with hf | hf
    · obtain ⟨b, hb⟩ := emitRow_shape hf
      exact ⟨x, b, hb⟩
    · exact ih hf

/-- Unfolding of `generate_geojson_grid` in MinDivisionSize mode when both axis
computations succeed and the emission loop raises no NameError. -/
theorem generate_min_ok (geod : Pt → Pt → ℚ) (bounds : List Pt) (m : ℚ)
    (hlen : bounds.length = 2 ∨ bounds.length = 4) {d0 d1 : Division}
    (h0 : min_size_axis m (gridWidth geod bounds)
        ((normBounds bounds).max_x - (normBounds bounds).min_x) = .ok d0)
    (h1 : min_size_axis m (gridHeight geod bounds)
        ((normBounds bounds).max_y - (normBounds bounds).min_y) = .ok d1)
    (hname : ¬(d0.count.toNat ≠ 0 ∧ d1.count.toNat = 0)) :
    generate_geojson_grid geod bounds m none =
      .ok ⟨[d0, d1],
        emitRows d0.count.toNat d1.count.toNat (normBounds bounds).min_x
          (normBounds bounds).min_y d0.step d1.step, none⟩ := by
  simp only [generate_geojson_grid, compute_divisions, emitGrid, h0, h1]
  rw [if_pos hlen, if_neg hname]
  simp [Option.map]

/-- MinDivisionSize mode propagates an error from the width axis. -/
theorem generate_min_err0 (geod : Pt → Pt → ℚ) (bounds : List Pt) (m : ℚ)
    (hlen : bounds.length = 2 ∨ bounds.length = 4) {e : PyErr}
    (h0 : min_size_axis m (gridWidth geod bounds)
        ((normBounds bounds).max_x - (normBounds bounds).min_x) = .error e) :
    generate_geojson_grid geod bounds m none = .error e := by
  simp only [generate_geojson_grid, compute_divisions, h0]
  rw [if_pos hlen]

/-- MinDivisionSize mode propagates an error from the height axis. -/
theorem generate_min_err1 (geod : Pt → Pt → ℚ) (bounds : List Pt) (m : ℚ)
    (hlen : bounds.length = 2 ∨ bounds.length = 4) {d0 : Division} {e : PyErr}
    (h0 : min_size_axis m (gridWidth geod bounds)
        ((normBounds bounds).max_x - (normBounds bounds).min_x) = .ok d0)
    (h1 : min_size_axis m (gridHeight geod bounds)
        ((normBounds bounds).max_y - (normBounds bounds).min_y) = .error e) :
    generate_geojson_grid geod bounds m none = .error e := by
  simp only [generate_geojson_grid, compute_divisions, h0, h1]
  rw [if_pos hlen]

/-- Unfolding of `generate_geojson_grid` in ExplicitDivisionCounts mode with a
two-element count list `[a, b]`: the list is reversed, so `b` lands on the
width (latitude, outer) axis and `a` on the height (longitude, inner) axis. -/
theorem generate_explicit_eval (geod : Pt → Pt → ℚ) (bounds : List Pt) (m : ℚ) (a b : ℤ)
    (hlen : bounds.length = 2 ∨ bounds.length = 4) (ha : a ≠ 0) (hb : b ≠ 0)
    (hname : ¬(b.toNat ≠ 0 ∧ a.toNat = 0)) :
    generate_geojson_grid geod bounds m (some [a, b]) =
      .ok ⟨[⟨b, ((normBounds bounds).max_x - (normBounds bounds).min_x) / (b : ℚ),
              gridWidth geod bounds / (b : ℚ)⟩,
            ⟨a, ((normBounds bounds).max_y - (normBounds bounds).min_y) / (a : ℚ),
              gridHeight geod bounds / (a : ℚ)⟩],
        emitRows b.toNat a.toNat (normBounds bounds).min_x (normBounds bounds).min_y
          (((normBounds bounds).max_x - (normBounds bounds).min_x) / (b : ℚ))
          (((normBounds bounds).max_y - (normBounds bounds).min_y) / (a : ℚ)),
        some [b, a]⟩ := by
  simp only [generate_geojson_grid, compute_divisions, emitGrid, List.reverse_cons,
    List.reverse_nil, List.nil_append, List.cons_append, List.append_nil,
    explicit_axis_ok _ _ hb, explicit_axis_ok _ _ ha]
  rw [if_pos hlen, if_neg hname]
  simp [Option.map, List.reverse_cons]

/-- ExplicitDivisionCounts mode raises ZeroDivisionError when either supplied
count is zero. -/
theorem generate_explicit_zero (geod : Pt → Pt → ℚ) (bounds : List Pt) (m : ℚ) (a b : ℤ)
    (hlen : bounds.length = 2 ∨ bounds.length = 4) (h : a = 0 ∨ b = 0) :
    generate_geojson_grid geod bounds m (some [a, b]) = .error .zeroDivision := by
  rcases h with h | h
  · subst h
    rcases eq_or_ne b 0 with hb | hb
    · subst hb
      simp only [generate_geojson_grid, compute_divisions, List.reverse_cons,
        List.reverse_nil, List.nil_append, List.cons_append, List.append_nil,
        explicit_axis_zero]
      rw [if_pos hlen]
    · simp only [generate_geojson_grid, compute_divisions, List.reverse_cons,
        List.reverse_nil, List.nil_append, List.cons_append, List.append_nil,
        explicit_axis_ok _ _ hb, explicit_axis_zero]
      rw [if_pos hlen]
  · subst h
    simp only [generate_geojson_grid, compute_divisions, List.reverse_cons,
      List.reverse_nil, List.nil_append, List.cons_append, List.append_nil,
      explicit_axis_zero]
    rw [if_pos hlen]

/-- MinDivisionSize mode raises ZeroDivisionError for a zero minimum size. -/
theorem generate_min_zero (geod : Pt → Pt → ℚ) (bounds : List Pt)
    (hlen : bounds.length = 2 ∨ bounds.length = 4) :
    generate_geojson_grid geod bounds 0 none = .error .zeroDivision :=
  generate_min_err0 geod bounds 0 hlen (min_size_axis_err _ (Or.inl rfl))

/-- The only runtime error `min_size_axis` can raise is ZeroDivisionError. -/
theorem min_size_axis_error_eq {m dim diff : ℚ} {e : PyErr}
    (h : min_size_axis m dim diff = .error e) : e = .zeroDivision := by
  by_cases hm : m = 0
  · have h2 := (min_size_axis_err diff (Or.inl hm)).symm.trans h
    exact (Except.error.inj h2).symm
  · by_cases hfl : ⌊dim / m⌋ = 0
    · have h2 := (min_size_axis_err diff (Or.inr hfl)).symm.trans h
      exact (Except.error.inj h2).symm
    · rw [min_size_axis_ok diff hm hfl] at h
      exact absurd h (by simp)

/-- Polling a task that answers `n` not-yet-finished responses before the
successful one sleeps for `t, t+10, …, t+10(n-1)` seconds. -/
theorem pollTask_replicate (n : ℕ) (d : ℚ) (t : ℕ) (s : List ℕ) (r : ℕ) :
    pollTask (List.replicate n taskResp ++ [dataResp d]) t s r =
      .done d [] (s ++ (List.range n).map fun i => t + 10 * i) (r + n + 1) := by
  induction n generalizing t s r with
  | zero => simp [pollTask, dataResp]
  | succ k ih =>
    rw [List.replicate_succ, List.cons_append]
    have hdata : taskResp.data = none := rfl
    have herr : taskResp.error = false := rfl
    have hstat : taskResp.status = "started" := rfl
    simp only [pollTask, hdata, herr, hstat]
    rw [if_pos (by simp)]
    rw [ih]
    have harith : ((fun i => t + 10 * i) ∘ Nat.succ) = fun i => (t + 10) + 10 * i := by
      funext i
      simp [Function.comp]
      ring
    rw [List.range_succ_eq_map, List.map_cons, List.map_map, harith]
    simp [List.append_assoc]
    omega

/-- A grid whose cells all carry a population annotation is traversed without
issuing a single request, sleeping, or changing any cell. -/
theorem fetchCells_skip (grid : List Feature) (hall : ∀ c ∈ grid, (c.population).isSome = true)
    (stream : List Resp) (acc : List Feature) (s : List ℕ) (r : ℕ) (t : ℚ) :
    ∃ t2, fetchCells grid stream acc s r t = ⟨.ok (acc ++ grid), s, r, t2⟩ := by
  induction grid generalizing acc t with
  | nil => exact ⟨t, by simp [fetchCells]⟩
  | cons c cs ih =>
    obtain ⟨p, hp⟩ := Option.isSome_iff_exists.mp (hall c (List.mem_cons_self c cs))
    have hcs : ∀ x ∈ cs, (x.population).isSome = true := fun x hx =>
      hall x (List.mem_cons_of_mem c hx)
    obtain ⟨t2, ht⟩ := ih hcs (acc ++ [c]) (t + p)
    refine ⟨t2, ?_⟩
    simp only [fetchCells, hp]
    rw [ht]
    simp

/-- C2: In MinDivisionSize mode, each axis with `rawCount = dim / min` gets
division count `⌊rawCount⌋`; the size is `min` unchanged when `rawCount` is an
integer and `min + fract(rawCount) * min / ⌊rawCount⌋` otherwise, and in both
cases `count * size` reconstructs the axis distance exactly in ℚ. -/
theorem C2_min_division_sizing (m dim diff : ℚ) (hm : 0 < m) (hfl : 1 ≤ ⌊dim / m⌋) :
    ∃ d : Division,
      min_size_axis m dim diff = .ok d ∧
      d.count = ⌊dim / m⌋ ∧
      ((dim / m).den = 1 → d.size = m) ∧
      ((dim / m).den ≠ 1 →
        d.size = m + Int.fract (dim / m) * m / ((⌊dim / m⌋ : ℤ) : ℚ)) ∧
      (d.count : ℚ) * d.size = dim := by
  have hm2 : m ≠ 0 := ne_of_gt hm
  have hfl0 : ⌊dim / m⌋ ≠ 0 := by omega
  have hfl2 : ((⌊dim / m⌋ : ℤ) : ℚ) ≠ 0 := Int.cast_ne_zero.mpr hfl0
  refine ⟨_, min_size_axis_ok diff hm2 hfl0, rfl, ?_, ?_, ?_⟩
  · intro h
    simp [h]
  · intro h
    simp [h]
  · rcases eq_or_ne (dim / m).den 1 with hd | hd
    · have hq : (((dim / m).num : ℤ) : ℚ) = dim / m := (Rat.den_eq_one_iff (dim / m)).mp hd
      have hfloor : ((⌊dim / m⌋ : ℤ) : ℚ) = dim / m := by
        rw [← hq, Int.floor_intCast]
      rw [if_pos hd, hfloor, div_mul_cancel₀ _ hm2]
    · have expand : ((⌊dim / m⌋ : ℤ) : ℚ) *
            (m + Int.fract (dim / m) * m / ((⌊dim / m⌋ : ℤ) : ℚ))
          = (((⌊dim / m⌋ : ℤ) : ℚ) + Int.fract (dim / m)) * m := by
        rw [mul_add, ← mul_div_assoc, mul_div_cancel_left₀ _ hfl2, add_mul]
      rw [if_neg hd, expand, Int.floor_add_fract, div_mul_cancel₀ _ hm2]

theorem C2_min_division_sizing_witness :
    (0 : ℚ) < 100 ∧ (1 : ℤ) ≤ ⌊(250 : ℚ) / 100⌋ ∧
    (∃ d : Division,
      min_size_axis 100 250 5 = .ok d ∧
      d.count = ⌊(250 : ℚ) / 100⌋ ∧
      (((250 : ℚ) / 100).den = 1 → d.size = 100) ∧
      (((250 : ℚ) / 100).den ≠ 1 →
        d.size = 100 + Int.fract ((250 : ℚ) / 100) * 100 / ((⌊(250 : ℚ) / 100⌋ : ℤ) : ℚ)) ∧
      (d.count : ℚ) * d.size = 250) :=
  ⟨by norm_num, by rw [Int.le_floor]; norm_num,
   C2_min_division_sizing 100 250 5 (by norm_num) (by rw [Int.le_floor]; norm_num)⟩

/-- C3: the polling wait starts at 10 seconds and grows by exactly 10 after
each unsuccessful poll with no cap and no retry limit — after `n` unsuccessful
polls the recorded sleeps are `10·1, 10·2, …, 10·n`; in particular a task
needing 2 polls before the data arrives sleeps exactly 10 then 20 seconds. -/
theorem C3_linear_backoff :
    (∀ (n : ℕ) (d : ℚ),
      pollTask (List.replicate n taskResp ++ [dataResp d]) 10 [] 0 =
        .done d [] ((List.range n).map fun i => 10 * (i + 1)) (n + 1)) ∧
    (∀ d : ℚ,
      (get_worldpop_data [blankCell] [taskResp, taskResp, taskResp, dataResp d]).sleeps
        = [10, 20]) := by
  constructor
  · intro n d
    rw [pollTask_replicate]
    have harith : (fun i => 10 + 10 * i) = fun i : ℕ => 10 * (i + 1) := by
      funext i
      ring
    rw [List.nil_append, harith, Nat.zero_add]
  · intro d
    have hpop : blankCell.population = none := rfl
    have hdata : taskResp.data = none := rfl
    have herr : taskResp.error = false := rfl
    have hstat : taskResp.status = "started" := rfl
    have htask : taskResp.taskid = some "tid" := rfl
    simp only [get_worldpop_data, fetchCells, hpop, hdata, herr, hstat, htask]
    rw [if_pos (by simp)]
    rw [show ([taskResp, taskResp, dataResp d] : List Resp)
          = List.replicate 2 taskResp ++ [dataResp d] from rfl,
        pollTask_replicate]
    simp [fetchCells, List.range_succ]

/-- C4: a grid in which every cell already carries a `population` annotation is
traversed with zero remote calls, no sleeping, and the written output equals
the input grid unchanged (idempotent resume). -/
theorem C4_idempotent_skip (grid : List Feature) (responses : List Resp)
    (h : ∀ c ∈ grid, (c.population).isSome = true) :
    (get_worldpop_data grid responses).requests = 0 ∧
    (get_worldpop_data grid responses).sleeps = [] ∧
    writtenOutput (get_worldpop_data grid responses).outcome = some grid := by
  obtain ⟨t2, ht⟩ := fetchCells_skip grid h responses [] [] 0 0
  rw [get_worldpop_data, ht]
  simp [writtenOutput]

theorem C4_idempotent_skip_witness :
    (∀ c ∈ ([⟨[], some 5⟩, ⟨[(1, 2)], some 3⟩] : List Feature),
      (c.population).isSome = true) ∧
    ((get_worldpop_data [⟨[], some 5⟩, ⟨[(1, 2)], some 3⟩] [errResp "em" "ed"]).requests = 0 ∧
     (get_worldpop_data [⟨[], some 5⟩, ⟨[(1, 2)], some 3⟩] [errResp "em" "ed"]).sleeps = [] ∧
     writtenOutput
        (get_worldpop_data [⟨[], some 5⟩, ⟨[(1, 2)], some 3⟩] [errResp "em" "ed"]).outcome
       = some [⟨[], some 5⟩, ⟨[(1, 2)], some 3⟩]) :=
  ⟨by decide, C4_idempotent_skip _ _ (by decide)⟩

/-- C5: when the very first cell's initial request is answered with
`error = true`, the run aborts after that one request with the response's
`error_description` surfaced and the grid persisted unchanged — no cell gains
a `population` key, no sleeps happen, and there is no unhandled crash. -/
theorem C5_first_response_error (c : Feature) (rest : List Feature) (r : Resp)
    (stream : List Resp) (hc : c.population = none) (hr : r.error = true) :
    get_worldpop_data (c :: rest) (r :: stream) =
      ⟨.initialError r.error_description (c :: rest), [], 1, 0⟩ := by
  cases hd : r.data with
  | none =>
    simp only [get_worldpop_data, fetchCells, hc, hd, hr]
    rw [if_neg (by simp)]
    simp
  | some d =>
    simp only [get_worldpop_data, fetchCells, hc, hd, hr]
    rw [if_neg (by simp)]
    simp

theorem C5_first_response_error_witness :
    ((blankCell.population = none) ∧ ((errResp "em" "ed").error = true)) ∧
    get_worldpop_data [blankCell, blankCell] [errResp "em" "ed"] =
      ⟨.initialError (errResp "em" "ed").error_description [blankCell, blankCell], [], 1, 0⟩ :=
  ⟨⟨rfl, rfl⟩, C5_first_response_error blankCell [blankCell] (errResp "em" "ed") [] rfl rfl⟩

/-- C10: the two fatal-error paths differ in persistence.  With the first cell
annotated from an immediate data response, an error reported during the second
cell's polling loop terminates without writing any output (the first cell's
annotation is lost), while an error on the second cell's initial response
writes the partially annotated grid before terminating. -/
theorem C10_persistence_asymmetry (c1 c2 : Feature) (d : ℚ) (em ed : String)
    (h1 : c1.population = none) (h2 : c2.population = none) :
    (get_worldpop_data [c1, c2] [dataResp d, taskResp, errResp em ed] =
        ⟨.pollError em, [], 3, d⟩ ∧
      writtenOutput (get_worldpop_data [c1, c2] [dataResp d, taskResp, errResp em ed]).outcome
        = none) ∧
    (get_worldpop_data [c1, c2] [dataResp d, errResp em ed] =
        ⟨.initialError ed [{ c1 with population := some d }, c2], [], 2, d⟩ ∧
      writtenOutput (get_worldpop_data [c1, c2] [dataResp d, errResp em ed]).outcome
        = some [{ c1 with population := some d }, c2]) := by
  have hA : get_worldpop_data [c1, c2] [dataResp d, taskResp, errResp em ed]
      = ⟨.pollError em, [], 3, d⟩ := by
    simp [get_worldpop_data, fetchCells, pollTask, h1, h2, dataResp, taskResp, errResp]
  have hB : get_worldpop_data [c1, c2] [dataResp d, errResp em ed]
      = ⟨.initialError ed [{ c1 with population := some d }, c2], [], 2, d⟩ := by
    simp [get_worldpop_data, fetchCells, h1, h2, dataResp, errResp]
  refine ⟨⟨hA, ?_⟩, ⟨hB, ?_⟩⟩
  · rw [hA]
    rfl
  · rw [hB]
    rfl

theorem C10_persistence_asymmetry_witness :
    (blankCell.population = none ∧ blankCell.population = none) ∧
    ((get_worldpop_data [blankCell, blankCell] [dataResp 7, taskResp, errResp "em" "ed"] =
        ⟨.pollError "em", [], 3, 7⟩ ∧
      writtenOutput (get_worldpop_data [blankCell, blankCell]
          [dataResp 7, taskResp, errResp "em" "ed"]).outcome = none) ∧
     (get_worldpop_data [blankCell, blankCell] [dataResp 7, errResp "em" "ed"] =
        ⟨.initialError "ed" [{ blankCell with population := some 7 }, blankCell], [], 2, 7⟩ ∧
      writtenOutput (get_worldpop_data [blankCell, blankCell]
          [dataResp 7, errResp "em" "ed"]).outcome
        = some [{ blankCell with population := some 7 }, blankCell])) :=
  ⟨⟨rfl, rfl⟩, C10_persistence_asymmetry blankCell blankCell 7 "em" "ed" rfl rfl⟩

/-- C8: in ExplicitDivisionCounts mode every emitted cell has the same degree
spans; each axis's degree step is that axis's degree span divided by the count
used on that axis, with no meter-based adjustment, and count times step gives
back the axis span exactly. -/
theorem C8_explicit_uniform_cells (geod : Pt → Pt → ℚ) (p q : Pt) (m : ℚ) (a b : ℤ)
    (ha : 1 ≤ a) (hb : 1 ≤ b) :
    ∃ r : GridResult,
      generate_geojson_grid geod [p, q] m (some [a, b]) = .ok r ∧
      r.divisions = [⟨b, (max p.lat q.lat - min p.lat q.lat) / ((b : ℤ) : ℚ),
                       gridWidth geod [p, q] / ((b : ℤ) : ℚ)⟩,
                     ⟨a, (max p.lon q.lon - min p.lon q.lon) / ((a : ℤ) : ℚ),
                       gridHeight geod [p, q] / ((a : ℤ) : ℚ)⟩] ∧
      ((b : ℤ) : ℚ) * ((max p.lat q.lat - min p.lat q.lat) / ((b : ℤ) : ℚ))
        = max p.lat q.lat - min p.lat q.lat ∧
      ((a : ℤ) : ℚ) * ((max p.lon q.lon - min p.lon q.lon) / ((a : ℤ) : ℚ))
        = max p.lon q.lon - min p.lon q.lon ∧
      ∀ f ∈ r.features, ∃ x y,
        f = mkCell x y ((max p.lat q.lat - min p.lat q.lat) / ((b : ℤ) : ℚ))
          ((max p.lon q.lon - min p.lon q.lon) / ((a : ℤ) : ℚ)) := by
  have ha0 : a ≠ 0 := by omega
  have hb0 : b ≠ 0 := by omega
  have hb2 : ((b : ℤ) : ℚ) ≠ 0 := Int.cast_ne_zero.mpr hb0
  have ha2 : ((a : ℤ) : ℚ) ≠ 0 := Int.cast_ne_zero.mpr ha0
  have hname : ¬(b.toNat ≠ 0 ∧ a.toNat = 0) := by omega
  refine ⟨_, generate_explicit_eval geod [p, q] m a b (Or.inl rfl) ha0 hb0 hname,
    ?_, ?_, ?_, ?_⟩
  · simp [normBounds_pair]
  · rw [← mul_div_assoc, mul_div_cancel_left₀ _ hb2]
  · rw [← mul_div_assoc, mul_div_cancel_left₀ _ ha2]
  · intro f hf
    simp only [normBounds_pair] at hf
    exact emitRows_shape hf

theorem C8_explicit_uniform_cells_witness :
    ((1 : ℤ) ≤ 2 ∧ (1 : ℤ) ≤ 3) ∧
    (∃ r : GridResult,
      generate_geojson_grid (stubGeod 1 1) [⟨0, 0⟩, ⟨1, 2⟩] 100 (some [2, 3]) = .ok r ∧
      r.divisions = [⟨3, (max (⟨0, 0⟩ : Pt).lat (⟨1, 2⟩ : Pt).lat
                            - min (⟨0, 0⟩ : Pt).lat (⟨1, 2⟩ : Pt).lat) / ((3 : ℤ) : ℚ),
                       gridWidth (stubGeod 1 1) [⟨0, 0⟩, ⟨1, 2⟩] / ((3 : ℤ) : ℚ)⟩,
                     ⟨2, (max (⟨0, 0⟩ : Pt).lon (⟨1, 2⟩ : Pt).lon
                            - min (⟨0, 0⟩ : Pt).lon (⟨1, 2⟩ : Pt).lon) / ((2 : ℤ) : ℚ),
                       gridHeight (stubGeod 1 1) [⟨0, 0⟩, ⟨1, 2⟩] / ((2 : ℤ) : ℚ)⟩] ∧
      ((3 : ℤ) : ℚ) * ((max (⟨0, 0⟩ : Pt).lat (⟨1, 2⟩ : Pt).lat
          - min (⟨0, 0⟩ : Pt).lat (⟨1, 2⟩ : Pt).lat) / ((3 : ℤ) : ℚ))
        = max (⟨0, 0⟩ : Pt).lat (⟨1, 2⟩ : Pt).lat - min (⟨0, 0⟩ : Pt).lat (⟨1, 2⟩ : Pt).lat ∧
      ((2 : ℤ) : ℚ) * ((max (⟨0, 0⟩ : Pt).lon (⟨1, 2⟩ : Pt).lon
          - min (⟨0, 0⟩ : Pt).lon (⟨1, 2⟩ : Pt).lon) / ((2 : ℤ) : ℚ))
        = max (⟨0, 0⟩ : Pt).lon (⟨1, 2⟩ : Pt).lon - min (⟨0, 0⟩ : Pt).lon (⟨1, 2⟩ : Pt).lon ∧
      ∀ f ∈ r.features, ∃ x y,
        f = mkCell x y ((max (⟨0, 0⟩ : Pt).lat (⟨1, 2⟩ : Pt).lat
            - min (⟨0, 0⟩ : Pt).lat (⟨1, 2⟩ : Pt).lat) / ((3 : ℤ) : ℚ))
          ((max (⟨0, 0⟩ : Pt).lon (⟨1, 2⟩ : Pt).lon
            - min (⟨0, 0⟩ : Pt).lon (⟨1, 2⟩ : Pt).lon) / ((2 : ℤ) : ℚ))) :=
  ⟨⟨by decide, by decide⟩,
   C8_explicit_uniform_cells (stubGeod 1 1) ⟨0, 0⟩ ⟨1, 2⟩ 100 2 3 (by decide) (by decide)⟩

/-- C9: with an explicit `num_divisions` list `[a, b]`, the caller's list is
reversed in place (its post-call value is `[b, a]`), the second element `b`
drives the width (latitude, outer-loop) axis, the first element `a` drives the
height (longitude, inner-loop) axis, and `b·a` cells come out. -/
theorem C9_reverse_in_place (geod : Pt → Pt → ℚ) (p q : Pt) (m : ℚ) (a b : ℤ)
    (ha : 1 ≤ a) (hb : 1 ≤ b) :
    ∃ r : GridResult,
      generate_geojson_grid geod [p, q] m (some [a, b]) = .ok r ∧
      r.num_divisions_after = some [b, a] ∧
      r.divisions.map Division.count = [b, a] ∧
      r.divisions.map Division.step
        = [(max p.lat q.lat - min p.lat q.lat) / ((b : ℤ) : ℚ),
           (max p.lon q.lon - min p.lon q.lon) / ((a : ℤ) : ℚ)] ∧
      r.features.length = b.toNat * a.toNat := by
  have ha0 : a ≠ 0 := by omega
  have hb0 : b ≠ 0 := by omega
  have hname : ¬(b.toNat ≠ 0 ∧ a.toNat = 0) := by omega
  refine ⟨_, generate_explicit_eval geod [p, q] m a b (Or.inl rfl) ha0 hb0 hname,
    rfl, ?_, ?_, ?_⟩
  · simp
  · simp [normBounds_pair]
  · simp [emitRows_length]

theorem C9_reverse_in_place_witness :
    ((1 : ℤ) ≤ 2 ∧ (1 : ℤ) ≤ 3) ∧
    (∃ r : GridResult,
      generate_geojson_grid (stubGeod 1 1) [⟨0, 0⟩, ⟨1, 2⟩] 100 (some [2, 3]) = .ok r ∧
      r.num_divisions_after = some [3, 2] ∧
      r.divisions.map Division.count = [3, 2] ∧
      r.divisions.map Division.step
        = [(max (⟨0, 0⟩ : Pt).lat (⟨1, 2⟩ : Pt).lat
              - min (⟨0, 0⟩ : Pt).lat (⟨1, 2⟩ : Pt).lat) / ((3 : ℤ) : ℚ),
           (max (⟨0, 0⟩ : Pt).lon (⟨1, 2⟩ : Pt).lon
              - min (⟨0, 0⟩ : Pt).lon (⟨1, 2⟩ : Pt).lon) / ((2 : ℤ) : ℚ)] ∧
      r.features.length = (3 : ℤ).toNat * (2 : ℤ).toNat) :=
  ⟨⟨by decide, by decide⟩,
   C9_reverse_in_place (stubGeod 1 1) ⟨0, 0⟩ ⟨1, 2⟩ 100 2 3 (by decide) (by decide)⟩

/-- C1 (amended): for 2- or 4-point bounds, a nonzero minimum size, and
geodesic extents at least one minimum size on each axis, the emitted grid has
exactly `⌊width/min⌋ * ⌊height/min⌋` cells; when an axis extent is smaller
than the minimum size the run instead dies with ZeroDivisionError. -/
theorem C1_cell_count (geod : Pt → Pt → ℚ) (bounds : List Pt) (m : ℚ)
    (hlen : bounds.length = 2 ∨ bounds.length = 4) (hm : m ≠ 0)
    (hw : 1 ≤ ⌊gridWidth geod bounds / m⌋) (hh : 1 ≤ ⌊gridHeight geod bounds / m⌋) :
    ∃ r : GridResult, generate_geojson_grid geod bounds m none = .ok r ∧
      (r.features.length : ℤ)
        = ⌊gridWidth geod bounds / m⌋ * ⌊gridHeight geod bounds / m⌋ := by
  have hw0 : ⌊gridWidth geod bounds / m⌋ ≠ 0 := by omega
  have hh0 : ⌊gridHeight geod bounds / m⌋ ≠ 0 := by omega
  refine ⟨_, generate_min_ok geod bounds m hlen
      (min_size_axis_ok _ hm hw0) (min_size_axis_ok _ hm hh0) ?_, ?_⟩
  · dsimp only
    omega
  · dsimp only
    rw [emitRows_length, Nat.cast_mul,
      Int.toNat_of_nonneg (by omega), Int.toNat_of_nonneg (by omega)]

/-- C1 counterexample: a valid 2-point box with positive spans and positive
`minDivisionMeters = 100`, whose geodesic width is 50 m.  The claimed cell
count would be `⌊50/100⌋ * ⌊300/100⌋ = 0`, but no grid is emitted at all: the
run dies with a ZeroDivisionError while adjusting the division size. -/
theorem C1_cell_count_counterexample :
    generate_geojson_grid (stubGeod (1/20) (3/10)) [⟨0, 0⟩, ⟨1, 1⟩] 100 none
      = .error .zeroDivision := by
  have hW : gridWidth (stubGeod (1/20) (3/10)) [⟨0, 0⟩, ⟨1, 1⟩] = 50 := by
    norm_num [gridWidth, normBounds, listMin, listMax, stubGeod, Pt.mk.injEq,
      min_def, max_def]
  apply generate_min_err0 (stubGeod (1/20) (3/10)) [⟨0, 0⟩, ⟨1, 1⟩] 100 (Or.inl rfl)
  apply min_size_axis_err
  right
  rw [hW, show (50 : ℚ) / 100 = 1 / 2 by norm_num, Int.floor_eq_zero_iff]
  constructor
  · norm_num
  · norm_num

theorem C1_cell_count_witness :
    ((100 : ℚ) ≠ 0 ∧
     (1 : ℤ) ≤ ⌊gridWidth (stubGeod (7/20) (1/4)) [⟨0, 0⟩, ⟨1, 1⟩] / 100⌋ ∧
     (1 : ℤ) ≤ ⌊gridHeight (stubGeod (7/20) (1/4)) [⟨0, 0⟩, ⟨1, 1⟩] / 100⌋) ∧
    (∃ r : GridResult,
      generate_geojson_grid (stubGeod (7/20) (1/4)) [⟨0, 0⟩, ⟨1, 1⟩] 100 none = .ok r ∧
      (r.features.length : ℤ)
        = ⌊gridWidth (stubGeod (7/20) (1/4)) [⟨0, 0⟩, ⟨1, 1⟩] / 100⌋
          * ⌊gridHeight (stubGeod (7/20) (1/4)) [⟨0, 0⟩, ⟨1, 1⟩] / 100⌋) := by
  have hW : gridWidth (stubGeod (7/20) (1/4)) [⟨0, 0⟩, ⟨1, 1⟩] = 350 := by
    norm_num [gridWidth, normBounds, listMin, listMax, stubGeod, Pt.mk.injEq,
      min_def, max_def]
  have hH : gridHeight (stubGeod (7/20) (1/4)) [⟨0, 0⟩, ⟨1, 1⟩] = 250 := by
    norm_num [gridHeight, normBounds, listMin, listMax, stubGeod, Pt.mk.injEq,
      min_def, max_def]
  have h1 : (1 : ℤ) ≤ ⌊gridWidth (stubGeod (7/20) (1/4)) [⟨0, 0⟩, ⟨1, 1⟩] / 100⌋ := by
    rw [hW, Int.le_floor]
    norm_num
  have h2 : (1 : ℤ) ≤ ⌊gridHeight (stubGeod (7/20) (1/4)) [⟨0, 0⟩, ⟨1, 1⟩] / 100⌋ := by
    rw [hH, Int.le_floor]
    norm_num
  exact ⟨⟨by norm_num, h1, h2⟩,
    C1_cell_count (stubGeod (7/20) (1/4)) [⟨0, 0⟩, ⟨1, 1⟩] 100 (Or.inl rfl)
      (by norm_num) h1 h2⟩

/-- C6 counterexample: with explicit division counts the degenerate box whose
corners share latitude 0 is not rejected — a 4-cell grid of zero-height cells
is built and written. -/
theorem C6_degenerate_counterexample :
    Except.map (fun r => r.features.length)
      (generate_geojson_grid (stubGeod 1 1) [⟨0, 0⟩, ⟨0, 1⟩] 100 (some [2, 2])) = .ok 4 := by
  rw [generate_explicit_eval (stubGeod 1 1) [⟨0, 0⟩, ⟨0, 1⟩] 100 2 2 (Or.inl rfl)
      (by decide) (by decide) (by decide)]
  simp [Except.map, emitRows_length]

/-- C6 (amended): in MinDivisionSize mode a degenerate box — one whose
geodesic width or height is zero — makes the run fail with a ZeroDivisionError
before any grid is built; this is an unhandled crash rather than an explicit
rejection, and explicit-count mode does not reject degenerate boxes at all. -/
theorem C6_degenerate_min_mode (geod : Pt → Pt → ℚ) (bounds : List Pt) (m : ℚ)
    (hlen : bounds.length = 2 ∨ bounds.length = 4) (hm : m ≠ 0)
    (hdeg : gridWidth geod bounds = 0 ∨ gridHeight geod bounds = 0) :
    generate_geojson_grid geod bounds m none = .error .zeroDivision := by
  rcases hdeg with hdeg | hdeg
  · apply generate_min_err0 _ _ _ hlen
    apply min_size_axis_err
    right
    rw [hdeg, zero_div, Int.floor_zero]
  · cases hW : min_size_axis m (gridWidth geod bounds)
        ((normBounds bounds).max_x - (normBounds bounds).min_x) with
    | error e =>
      rw [min_size_axis_error_eq hW] at hW
      exact generate_min_err0 _ _ _ hlen hW
    | ok d0 =>
      apply generate_min_err1 _ _ _ hlen hW
      apply min_size_axis_err
      right
      rw [hdeg, zero_div, Int.floor_zero]

theorem C6_degenerate_min_mode_witness :
    ((100 : ℚ) ≠ 0 ∧
     (gridWidth (stubGeod 0 0) [⟨0, 0⟩, ⟨0, 1⟩] = 0 ∨
      gridHeight (stubGeod 0 0) [⟨0, 0⟩, ⟨0, 1⟩] = 0)) ∧
    generate_geojson_grid (stubGeod 0 0) [⟨0, 0⟩, ⟨0, 1⟩] 100 none
      = .error .zeroDivision := by
  have hW : gridWidth (stubGeod 0 0) [⟨0, 0⟩, ⟨0, 1⟩] = 0 := by
    norm_num [gridWidth, normBounds, listMin, listMax, stubGeod, min_def, max_def]
  exact ⟨⟨by norm_num, Or.inl hW⟩,
    C6_degenerate_min_mode (stubGeod 0 0) [⟨0, 0⟩, ⟨0, 1⟩] 100 (Or.inl rfl)
      (by norm_num) (Or.inl hW)⟩

/-- C7 counterexample: a negative minimum division size (−100) is not rejected
as an input error — the run succeeds and silently writes an empty grid with
zero features, because both floored counts are negative and both Python
`range` loops are empty. -/
theorem C7_negative_min_counterexample :
    Except.map (fun r => r.features)
      (generate_geojson_grid (stubGeod (2/5) (3/10)) [⟨0, 0⟩, ⟨1, 1⟩] (-100) none)
      = .ok [] := by
  have hW : gridWidth (stubGeod (2/5) (3/10)) [⟨0, 0⟩, ⟨1, 1⟩] = 400 := by
    norm_num [gridWidth, normBounds, listMin, listMax, stubGeod, Pt.mk.injEq,
      min_def, max_def]
  have hH : gridHeight (stubGeod (2/5) (3/10)) [⟨0, 0⟩, ⟨1, 1⟩] = 300 := by
    norm_num [gridHeight, normBounds, listMin, listMax, stubGeod, Pt.mk.injEq,
      min_def, max_def]
  have hfw : ⌊gridWidth (stubGeod (2/5) (3/10)) [⟨0, 0⟩, ⟨1, 1⟩] / (-100)⌋ = -4 := by
    rw [hW, show (400 : ℚ) / (-100) = ((-4 : ℤ) : ℚ) by norm_num, Int.floor_intCast]
  have hfh : ⌊gridHeight (stubGeod (2/5) (3/10)) [⟨0, 0⟩, ⟨1, 1⟩] / (-100)⌋ = -3 := by
    rw [hH, show (300 : ℚ) / (-100) = ((-3 : ℤ) : ℚ) by norm_num, Int.floor_intCast]
  have hw0 : ⌊gridWidth (stubGeod (2/5) (3/10)) [⟨0, 0⟩, ⟨1, 1⟩] / (-100)⌋ ≠ 0 := by
    rw [hfw]
    decide
  have hh0 : ⌊gridHeight (stubGeod (2/5) (3/10)) [⟨0, 0⟩, ⟨1, 1⟩] / (-100)⌋ ≠ 0 := by
    rw [hfh]
    decide
  have hname : ¬((⌊gridWidth (stubGeod (2/5) (3/10)) [⟨0, 0⟩, ⟨1, 1⟩] / (-100)⌋).toNat ≠ 0 ∧
      (⌊gridHeight (stubGeod (2/5) (3/10)) [⟨0, 0⟩, ⟨1, 1⟩] / (-100)⌋).toNat = 0) := by
    rw [hfw]
    rintro ⟨hx, _⟩
    exact hx rfl
  rw [generate_min_ok (stubGeod (2/5) (3/10)) [⟨0, 0⟩, ⟨1, 1⟩] (-100) (Or.inl rfl)
      (min_size_axis_ok _ (by norm_num) hw0) (min_size_axis_ok _ (by norm_num) hh0) hname]
  dsimp only
  rw [hfw]
  rfl

/-- C7 (amended): a zero explicit division count on either axis, and a zero
minimum division size, abort with a ZeroDivisionError while the division list
is being computed — before any file output and trivially before any remote
call (grid generation performs none); a negative minimum size, by contrast,
is not rejected (see the counterexample). -/
theorem C7_zero_inputs :
    (∀ (geod : Pt → Pt → ℚ) (bounds : List Pt) (m : ℚ) (a b : ℤ),
      (bounds.length = 2 ∨ bounds.length = 4) → (a = 0 ∨ b = 0) →
      generate_geojson_grid geod bounds m (some [a, b]) = .error .zeroDivision) ∧
    (∀ (geod : Pt → Pt → ℚ) (bounds : List Pt),
      (bounds.length = 2 ∨ bounds.length = 4) →
      generate_geojson_grid geod bounds 0 none = .error .zeroDivision) :=
  ⟨fun geod bounds m a b hlen h => generate_explicit_zero geod bounds m a b hlen h,
   fun geod bounds hlen => generate_min_zero geod bounds hlen⟩

theorem C7_zero_inputs_witness :
    generate_geojson_grid (stubGeod 1 1) [⟨0, 0⟩, ⟨1, 1⟩] 100 (some [0, 5])
      = .error .zeroDivision ∧
    generate_geojson_grid (stubGeod 1 1) [⟨0, 0⟩, ⟨1, 1⟩] 0 none
      = .error .zeroDivision :=
  ⟨C7_zero_inputs.1 (stubGeod 1 1) [⟨0, 0⟩, ⟨1, 1⟩] 100 0 5 (Or.inl rfl) (Or.inl rfl),
   C7_zero_inputs.2 (stubGeod 1 1) [⟨0, 0⟩, ⟨1, 1⟩] (Or.inl rfl)⟩
